import Mathlib

/-!
# Verification of the Geekworm X708 UPS HAT sensor integration

A shallow embedding of `custom_components/GeekwormUPS/sensor.py` and proofs
about its register decoding, caching and presentation logic.

Modelling conventions:

* Python values manipulated by this module (`None`, booleans, ints/floats,
  tuples of numbers) are embedded in the inductive type `PyVal`.  Python
  floats are idealised as exact rationals; every quantity appearing in the
  claims (multiples of `1.25 / 1000 / 16`, sixteen-bit words divided by
  `256`, the integer tier thresholds) is representable exactly at double
  precision, so the idealisation does not change any of the equalities at
  stake.
* The i2c bus is modelled per poll by `BusRead`: the outcome of
  `read_word_data(addr, 2)` and of `read_word_data(addr, 4)`, where `none`
  stands for a raised `IOError`.
* A raised exception is modelled by an `Option`-valued result together with
  the (possibly partially mutated) state at the moment of the raise, since
  Python exceptions do not roll back attribute assignments.
-/

set_option autoImplicit false

namespace GeekwormUPS

/-- Python values handled by the module: `None`, `bool`, numbers
(`int`/`float` merged, idealised as `ℚ`), and tuples of numbers (the only
tuple the module ever builds is the one-element tuple produced by the
trailing comma in `UPS.get_sensor_data`). -/
inductive PyVal where
  | none : PyVal
  | bool (b : Bool) : PyVal
  | num (q : ℚ) : PyVal
  | tuple (elems : List ℚ) : PyVal
deriving DecidableEq, Repr

/-- Python truthiness: `None` and `False` are falsy, a number is falsy iff
it is zero, a tuple is falsy iff it is empty. -/
def PyVal.truthy : PyVal → Bool
  | PyVal.none => false
  | PyVal.bool b => b
  | PyVal.num q => decide (q ≠ 0)
  | PyVal.tuple es => decide (es ≠ [])

/-- Numeric view of a value, mirroring `isinstance(x, int) or
isinstance(x, float)` (recall that in Python `bool` is a subtype of
`int`, so booleans pass the check and count as `0` / `1`). -/
def PyVal.asNum? : PyVal → Option ℚ
  | PyVal.num q => some q
  | PyVal.bool b => some (if b then 1 else 0)
  | _ => Option.none

/-- Round half to even (banker's rounding), the rounding mode of Python's
built-in `round`. -/
def roundHalfEven (q : ℚ) : ℤ :=
  let f : ℤ := ⌊q⌋
  if q - f < 1 / 2 then f
  else if 1 / 2 < q - f then f + 1
  else if f % 2 = 0 then f else f + 1

/-- Python `round(x, 2)`: defined on numbers (booleans included), raises
`TypeError` (modelled as `Option.none`) on anything else — in particular on
a tuple. -/
def pyRound2 (v : PyVal) : Option PyVal :=
  match v.asNum? with
  | some q => some (PyVal.num ((roundHalfEven (q * 100) : ℚ) / 100))
  | Option.none => Option.none

/-- Python `round(x)` with a single argument: rounds to the nearest
integer (half to even); raises `TypeError` on non-numbers. -/
def pyRound0 (v : PyVal) : Option PyVal :=
  match v.asNum? with
  | some q => some (PyVal.num (roundHalfEven q))
  | Option.none => Option.none

/-- `struct.unpack('<H', struct.pack('>H', read))[0]` for a sixteen-bit
word `read`: the big-endian byte pair reinterpreted little-endian, i.e. the
two bytes swapped.  Faithful to the source for `read < 65536`, the range
`read_word_data` returns (`struct.pack` raises outside it). -/
def byteswap16 (read : ℕ) : ℕ :=
  read % 256 * 256 + read / 256 % 256

/-- The fields of `FieldData`, the record `UPS` stores its decoded data
in.  Constructor defaults: `status = None`, `voltage = False`,
`capacity = None`. -/
structure FieldData where
  status : PyVal
  voltage : PyVal
  capacity : PyVal
deriving DecidableEq, Repr

/-- `FieldData.__init__`. -/
def FieldData.init : FieldData :=
  { status := PyVal.none, voltage := PyVal.bool false, capacity := PyVal.none }

/-- Outcome of the two `read_word_data` calls of one `get_sensor_data`
invocation: `reg2` is the word read at register offset 2 (voltage raw),
`reg4` the word at offset 4 (capacity raw); `none` models a raised
`IOError`. -/
structure BusRead where
  reg2 : Option ℕ
  reg4 : Option ℕ
deriving DecidableEq, Repr

/-- The value the source stores in `self.data.voltage`:
`swapped * 1.25 / 1000 / 16,` — note the trailing comma in the source,
which makes the stored value a ONE-ELEMENT TUPLE containing the scaled
voltage, not a bare float. -/
def voltageDecode (raw : ℕ) : PyVal :=
  PyVal.tuple [(byteswap16 raw : ℚ) * 1.25 / 1000 / 16]

/-- The value the source stores in `self.data.capacity`:
`swapped / 256` (a plain float, no clamping). -/
def capacityDecode (raw : ℕ) : PyVal :=
  PyVal.num ((byteswap16 raw : ℚ) / 256)

/-- `UPS.get_sensor_data`.  Reads offset 2, byte-swaps and stores the
voltage, then reads offset 4, byte-swaps and stores the capacity, and
returns `True`.  The result is the state of `self.data` when the call
ends (normally or by a raised `IOError`) together with `some` returned
value on normal completion and `Option.none` when a read raised.  A raise
on the second read leaves the freshly written voltage in place: Python
does not roll back the assignment on line 211. -/
def get_sensor_data (bus : BusRead) (d : FieldData) : FieldData × Option PyVal :=
  match bus.reg2 with
  | Option.none => (d, Option.none)
  | some r2 =>
    let d1 : FieldData := { d with voltage := voltageDecode r2 }
    match bus.reg4 with
    | Option.none => (d1, Option.none)
    | some r4 => ({ d1 with capacity := capacityDecode r4 }, some (PyVal.bool true))

/-- `UPSHandler.SensorData`: the handler's cached reading. -/
structure SensorData where
  voltage : PyVal
  capacity : PyVal
deriving DecidableEq, Repr

/-- `UPSHandler.SensorData.__init__`. -/
def SensorData.init : SensorData :=
  { voltage := PyVal.none, capacity := PyVal.none }

/-- The mutable state reachable from a `UPSHandler`: its cached
`sensor_data` and the `data` record of the wrapped `UPS` object. -/
structure UPSHandlerState where
  sensor_data : SensorData
  sensor : FieldData
deriving DecidableEq, Repr

/-- `UPSHandler.update`.  With `first_read` set it first performs one
throwaway `get_sensor_data` call (result ignored, exceptions NOT caught);
then it calls `get_sensor_data` again and, if the returned value is
truthy, copies the sensor's `data.voltage` and `data.capacity` into the
cached `sensor_data` — both fields together.  `busA` supplies the bus
outcomes of the throwaway call, `busB` those of the conditional call.
The `Bool` in the result is `true` on normal completion and `false` when
an uncaught exception propagates out of `update` (the method has no
`try`/`except`). -/
def UPSHandler.update (first_read : Bool) (busA busB : BusRead)
    (s : UPSHandlerState) : UPSHandlerState × Bool :=
  if first_read then
    match get_sensor_data busA s.sensor with
    | (d1, Option.none) => ({ s with sensor := d1 }, false)
    | (d1, some _) =>
      match get_sensor_data busB d1 with
      | (d2, Option.none) => ({ s with sensor := d2 }, false)
      | (d2, some ret) =>
        if ret.truthy then
          ({ sensor_data := { voltage := d2.voltage, capacity := d2.capacity },
             sensor := d2 }, true)
        else ({ s with sensor := d2 }, true)
  else
    match get_sensor_data busB s.sensor with
    | (d2, Option.none) => ({ s with sensor := d2 }, false)
    | (d2, some ret) =>
      if ret.truthy then
        ({ sensor_data := { voltage := d2.voltage, capacity := d2.capacity },
           sensor := d2 }, true)
      else ({ s with sensor := d2 }, true)

/-- The two sensor kinds the platform exposes. -/
inductive SensorType where
  | voltage : SensorType
  | capacity : SensorType
deriving DecidableEq, Repr, BEq

/-- `UPSSensor.async_update`: runs `self.UPS_client.update()` (default
`first_read=False`), then sets `self._state` to
`round(sensor_data.voltage, 2)` for the voltage entity or
`round(sensor_data.capacity)` for the capacity entity.  Arguments: the
entity's kind, this poll's bus outcomes, the handler state and the current
`_state`.  Result: the handler state, the `_state` after the call, and
`true` on normal completion / `false` when an exception (a bus `IOError`
out of `update`, or a `TypeError` out of `round`) propagates, in which
case `_state` keeps its previous value. -/
def UPSSensor.async_update (t : SensorType) (bus : BusRead)
    (client : UPSHandlerState) (state : PyVal) :
    UPSHandlerState × PyVal × Bool :=
  match UPSHandler.update false bus bus client with
  | (c, false) => (c, state, false)
  | (c, true) =>
    match t with
    | SensorType.voltage =>
      match pyRound2 c.sensor_data.voltage with
      | some v => (c, v, true)
      | Option.none => (c, state, false)
    | SensorType.capacity =>
      match pyRound0 c.sensor_data.capacity with
      | some v => (c, v, true)
      | Option.none => (c, state, false)

/-- `_setup_UPS`.  Constructing `UPS` runs one `get_sensor_data` call
(bus outcomes `busInit`); a `RuntimeError`/`IOError` there is caught and
the function returns `None`.  Then `UPSHandler(sensor)` runs
`update(first_read=True)` (bus outcomes `busA` for the throwaway call,
`busB` for the real one); exceptions there are NOT caught and propagate.
Then `sleep(0.5)` and, if `sensor_data.voltage` is falsy, the function
returns `None`; otherwise the handler.  Result: `Option.none` models an
exception escaping `_setup_UPS`; `some Option.none` a `return None`;
`some (some h)` success. -/
def setup_UPS (busInit busA busB : BusRead) :
    Option (Option UPSHandlerState) :=
  match get_sensor_data busInit FieldData.init with
  | (_, Option.none) => some Option.none
  | (d0, some _) =>
    match UPSHandler.update true busA busB
        { sensor_data := SensorData.init, sensor := d0 } with
    | (_, false) => Option.none
    | (s1, true) =>
      if s1.sensor_data.voltage.truthy then some (some s1)
      else some Option.none

/-- `async_setup_platform`: when `_setup_UPS` gives back `None` (or an
exception escapes the executor job) no entities are added; on success one
`UPSSensor` per monitored condition is added. -/
def platform_entities (monitored : List SensorType)
    (setupRes : Option (Option UPSHandlerState)) : List SensorType :=
  match setupRes with
  | some (some _) => monitored
  | _ => []

/-- The observable initialization steps of `_setup_UPS`, in source order:
the throwaway read inside `UPS.__init__` (line 202), the throwaway read of
`update(first_read=True)` (line 114), the conditional "real" read (line
115), `sleep(0.5)` (line 84), and the voltage check (line 85). -/
inductive InitEv where
  | readCtor : InitEv
  | readThrowaway : InitEv
  | readReal : InitEv
  | sleepSettle : InitEv
  | checkVoltage : InitEv
deriving DecidableEq, Repr, BEq

/-- Trace of `InitEv` events on the path through `_setup_UPS` on which
every bus read succeeds: the `UPS` constructor's read, then
`UPSHandler.__init__ → update(first_read=True)`'s throwaway and real
reads, then the settle sleep, then the voltage check. -/
def setupTrace : List InitEv :=
  [InitEv.readCtor, InitEv.readThrowaway, InitEv.readReal,
   InitEv.sleepSettle, InitEv.checkVoltage]

/-- `UPSSensor.icon` for the capacity entity, as evidently intended by
the comparison chain at lines 149–159.  As written the source is not
syntactically valid Python: line 154 reads `elif self._state >= 20` with
no colon and tab (not space) indentation, a `SyntaxError` that prevents
the module from being imported at all; this definition repairs exactly
that, keeping every comparison as written.  The `isinstance(self._state,
int) or isinstance(self._state, float)` guard is `asNum?`. -/
def icon_capacity (state : PyVal) : String :=
  match state.asNum? with
  | some q =>
    if 80 ≤ q then "mdi:battery-high"
    else if 50 ≤ q then "mdi:battery-medium"
    else if 20 ≤ q then "mdi:battery-low"
    else "mdi:battery-alert"
  | Option.none => "mdi:battery-unknown"

/-! ## Claims -/

/-- C1: the source multiplies the byte-swapped word by `1.25 / 1000 / 16`
exactly as claimed, but the trailing comma on
`self.data.voltage = swapped * 1.25 / 1000 / 16,` makes the STORED value a
one-element tuple, not the claimed bare number: at raw `0x1000 = 4096`
(byte-swapped `16`) the stored value is the tuple `(0.00125,)`, which is
not equal to the number `0.00125`. -/
theorem C1_voltage_tuple_bug (raw r4 : ℕ) (d : FieldData) :
    (get_sensor_data (BusRead.mk (some raw) (some r4)) d).1.voltage
      = PyVal.tuple [(byteswap16 raw : ℚ) * 1.25 / 1000 / 16]
    ∧ (get_sensor_data (BusRead.mk (some 4096) (some r4)) d).1.voltage
      = PyVal.tuple [1 / 800]
    ∧ (get_sensor_data (BusRead.mk (some 4096) (some r4)) d).1.voltage
      ≠ PyVal.num (1 / 800) := by
  refine ⟨rfl, ?_, ?_⟩
  · norm_num [get_sensor_data, voltageDecode, byteswap16]
  · simp [get_sensor_data, voltageDecode]

/-- C2: after a successful poll the cached capacity equals the
byte-swapped raw word divided by `256`, with no clamping: byte-swapped
`12800` (raw `0x0032 = 50`) gives `50`, and byte-swapped `65280`
(raw `0x00FF = 255`) gives `255`, well above 100. -/
theorem C2_capacity_decode (r2 r4 : ℕ) (busA : BusRead) (s : UPSHandlerState) :
    (UPSHandler.update false busA (BusRead.mk (some r2) (some r4)) s).1.sensor_data.capacity
      = PyVal.num ((byteswap16 r4 : ℚ) / 256)
    ∧ (UPSHandler.update false busA (BusRead.mk (some r2) (some 50)) s).1.sensor_data.capacity
      = PyVal.num 50
    ∧ (UPSHandler.update false busA (BusRead.mk (some r2) (some 255)) s).1.sensor_data.capacity
      = PyVal.num 255 := by
  refine ⟨?_, ?_, ?_⟩ <;>
    norm_num [UPSHandler.update, get_sensor_data, capacityDecode,
      PyVal.truthy, byteswap16]

/-- C3 counterexample: when the offset-2 read succeeds (raw `4096`) and
the offset-4 read raises, `get_sensor_data` leaves exactly one of the two
fields newly written: `data.voltage` has been overwritten while
`data.capacity` still holds its previous value. -/
theorem C3_partial_write_cex :
    (get_sensor_data (BusRead.mk (some 4096) Option.none) FieldData.init).1.voltage
      ≠ FieldData.init.voltage
    ∧ (get_sensor_data (BusRead.mk (some 4096) Option.none) FieldData.init).1.capacity
      = FieldData.init.capacity
    ∧ (get_sensor_data (BusRead.mk (some 4096) Option.none) FieldData.init).2
      = Option.none := by
  refine ⟨?_, rfl, rfl⟩
  simp [get_sensor_data, voltageDecode, FieldData.init]

/-- C3 amended: atomicity does hold one level up, for the handler's
cached `sensor_data`: a poll either leaves both cached fields untouched
(whenever any bus read fails) or rewrites both together from the two
decoded registers (when both reads succeed). -/
theorem C3_cache_atomicity (busA bus : BusRead) (s : UPSHandlerState) :
    (UPSHandler.update false busA bus s).1.sensor_data = s.sensor_data
    ∨ (∃ r2 r4, bus.reg2 = some r2 ∧ bus.reg4 = some r4 ∧
        (UPSHandler.update false busA bus s).1.sensor_data
          = { voltage := voltageDecode r2, capacity := capacityDecode r4 }) := by
  rcases bus with ⟨_ | r2, _ | r4⟩
  · exact Or.inl rfl
  · exact Or.inl rfl
  · exact Or.inl rfl
  · exact Or.inr ⟨r2, r4, rfl, rfl, by
      simp [UPSHandler.update, get_sensor_data, PyVal.truthy]⟩

/-- C4 counterexample: starting from the state cached by a successful
poll, a poll whose bus read raises does not swallow the error:
`UPSHandler.update` has no `try`/`except`, so the exception propagates
out of the poll operation (abnormal completion, modelled by the `false`
flag), contradicting the claim that no error is surfaced upward. -/
theorem C4_error_propagates_cex :
    (UPSHandler.update false (BusRead.mk Option.none Option.none)
        (BusRead.mk Option.none Option.none)
        ((UPSHandler.update false (BusRead.mk (some 4096) (some 50))
            (BusRead.mk (some 4096) (some 50))
            (UPSHandlerState.mk SensorData.init FieldData.init)).1)).2
      = false := by
  simp [UPSHandler.update, get_sensor_data, PyVal.truthy]

/-- C4 amended: when a bus read of a post-initialization poll fails, the
cached `sensor_data` is indeed left unchanged, and the entity's `_state`
is likewise unchanged by `async_update`; but the bus exception propagates
out of the poll operation instead of being silently swallowed. -/
theorem C4_stale_cache (s : UPSHandlerState) (busA busB : BusRead)
    (h : busB.reg2 = Option.none ∨ busB.reg4 = Option.none) :
    (UPSHandler.update false busA busB s).1.sensor_data = s.sensor_data
    ∧ (UPSHandler.update false busA busB s).2 = false
    ∧ ∀ t st, (UPSSensor.async_update t busB s st).2.1 = st
      ∧ (UPSSensor.async_update t busB s st).2.2 = false
      ∧ (UPSSensor.async_update t busB s st).1.sensor_data = s.sensor_data := by
  rcases busB with ⟨_ | r2, _ | r4⟩
  · exact ⟨rfl, rfl, fun t st => ⟨rfl, rfl, rfl⟩⟩
  · exact ⟨rfl, rfl, fun t st => ⟨rfl, rfl, rfl⟩⟩
  · exact ⟨rfl, rfl, fun t st => ⟨rfl, rfl, rfl⟩⟩
  · rcases h with h | h <;> exact absurd h (by simp)

/-- Witness for `C4_stale_cache` at a concrete failing poll. -/
theorem C4_stale_cache_witness :
    ((BusRead.mk Option.none (some 0)).reg2 = Option.none
      ∨ (BusRead.mk Option.none (some 0)).reg4 = Option.none)
    ∧ (UPSHandler.update false (BusRead.mk (some 0) (some 0))
        (BusRead.mk Option.none (some 0))
        (UPSHandlerState.mk SensorData.init FieldData.init)).1.sensor_data
      = SensorData.init :=
  ⟨Or.inl rfl,
   (C4_stale_cache (UPSHandlerState.mk SensorData.init FieldData.init)
      (BusRead.mk (some 0) (some 0)) (BusRead.mk Option.none (some 0))
      (Or.inl rfl)).1⟩

/-- C5 counterexample: in the initialization step sequence of
`_setup_UPS` the settle sleep does NOT precede the first real read (it
follows it), and the number of throwaway reads performed is not one (the
`UPS` constructor performs one and `update(first_read=True)` another). -/
theorem C5_delay_after_read_cex :
    ¬ setupTrace.indexOf InitEv.sleepSettle < setupTrace.indexOf InitEv.readReal
    ∧ setupTrace.count InitEv.readCtor + setupTrace.count InitEv.readThrowaway
      ≠ 1 := by
  constructor <;> decide

/-- C5 amended: initialization performs the constructor's throwaway read,
then the handler's throwaway read, then the first real read, and only
then the fixed 0.5-second settle delay, followed by the voltage check;
a failed constructor-time read makes `_setup_UPS` return `None`, in which
case no sensors are registered (and nothing ever calls `_setup_UPS`
again). -/
theorem C5_init_sequence :
    setupTrace.indexOf InitEv.readCtor < setupTrace.indexOf InitEv.readThrowaway
    ∧ setupTrace.indexOf InitEv.readThrowaway < setupTrace.indexOf InitEv.readReal
    ∧ setupTrace.indexOf InitEv.readReal < setupTrace.indexOf InitEv.sleepSettle
    ∧ setupTrace.indexOf InitEv.sleepSettle < setupTrace.indexOf InitEv.checkVoltage
    ∧ (∀ x busA busB, setup_UPS (BusRead.mk Option.none x) busA busB
        = some Option.none)
    ∧ (∀ m, platform_entities m (some Option.none) = []) := by
  refine ⟨by decide, by decide, by decide, by decide, fun x busA busB => rfl,
    fun m => rfl⟩

/-- C6: the capacity accessor does round the cached capacity to the
nearest integer (`50` for byte-swapped raw `12800`), but the voltage
accessor never emits anything: the cached voltage is a one-element tuple
(trailing comma on line 211), so `round(voltage, 2)` raises `TypeError`
and `async_update` completes abnormally with `_state` unchanged. -/
theorem C6_round_TypeError :
    pyRound2 ((get_sensor_data (BusRead.mk (some 4096) (some 50))
        FieldData.init).1.voltage) = Option.none
    ∧ (UPSSensor.async_update SensorType.voltage (BusRead.mk (some 4096) (some 50))
        (UPSHandlerState.mk SensorData.init FieldData.init) PyVal.none).2
      = (PyVal.none, false)
    ∧ (UPSSensor.async_update SensorType.capacity (BusRead.mk (some 4096) (some 50))
        (UPSHandlerState.mk SensorData.init FieldData.init) PyVal.none).2
      = (PyVal.num 50, true) := by
  refine ⟨rfl, ?_, ?_⟩ <;>
    norm_num [UPSSensor.async_update, UPSHandler.update, get_sensor_data,
      pyRound2, pyRound0, PyVal.asNum?, voltageDecode, capacityDecode,
      PyVal.truthy, roundHalfEven, byteswap16]

/-- C7: the cached Reading produced by a successful poll is a function of
the two raw register words alone — two successful polls that see the same
raw words leave bit-identical cached values, whatever state either poll
started from; in particular a repeated poll with unchanged registers
leaves the cache unchanged. -/
theorem C7_poll_deterministic (r2 r4 : ℕ) (busA busA2 : BusRead)
    (s t : UPSHandlerState) :
    (UPSHandler.update false busA (BusRead.mk (some r2) (some r4)) s).1.sensor_data
      = (UPSHandler.update false busA2 (BusRead.mk (some r2) (some r4)) t).1.sensor_data
    ∧ (UPSHandler.update false busA (BusRead.mk (some r2) (some r4))
        ((UPSHandler.update false busA (BusRead.mk (some r2) (some r4)) s).1)).1.sensor_data
      = (UPSHandler.update false busA (BusRead.mk (some r2) (some r4)) s).1.sensor_data := by
  constructor <;> simp [UPSHandler.update, get_sensor_data, PyVal.truthy]

/-- C8: the tier thresholds of the capacity icon's comparison chain, as
intended (the chain as written in the source is a `SyntaxError`, see
`icon_capacity`): `80 ≤ c` selects the high tier, `50 ≤ c < 80` the
medium tier, `20 ≤ c < 50` the low tier and `c < 20` the alert tier, the
boundaries 80, 50, 20 each landing in their upper tier. -/
theorem C8_icon_tiers (q : ℚ) :
    (80 ≤ q → icon_capacity (PyVal.num q) = "mdi:battery-high")
    ∧ (50 ≤ q → q < 80 → icon_capacity (PyVal.num q) = "mdi:battery-medium")
    ∧ (20 ≤ q → q < 50 → icon_capacity (PyVal.num q) = "mdi:battery-low")
    ∧ (q < 20 → icon_capacity (PyVal.num q) = "mdi:battery-alert") := by
  refine ⟨fun h => ?_, fun h1 h2 => ?_, fun h1 h2 => ?_, fun h => ?_⟩
  · simp [icon_capacity, PyVal.asNum?, h]
  · simp [icon_capacity, PyVal.asNum?, h1, not_le.mpr h2]
  · have h80 : ¬ 80 ≤ q := not_le.mpr (h2.trans (by norm_num))
    simp [icon_capacity, PyVal.asNum?, h1, not_le.mpr h2, h80]
  · have h80 : ¬ 80 ≤ q := not_le.mpr (h.trans (by norm_num))
    have h50 : ¬ 50 ≤ q := not_le.mpr (h.trans (by norm_num))
    simp [icon_capacity, PyVal.asNum?, not_le.mpr h, h80, h50]

/-- Witness for `C8_icon_tiers` at the three boundaries and below 20. -/
theorem C8_icon_tiers_witness :
    icon_capacity (PyVal.num 80) = "mdi:battery-high"
    ∧ icon_capacity (PyVal.num 50) = "mdi:battery-medium"
    ∧ icon_capacity (PyVal.num 20) = "mdi:battery-low"
    ∧ icon_capacity (PyVal.num 19) = "mdi:battery-alert" :=
  ⟨(C8_icon_tiers 80).1 (by norm_num),
   (C8_icon_tiers 50).2.1 (by norm_num) (by norm_num),
   (C8_icon_tiers 20).2.2.1 (by norm_num) (by norm_num),
   (C8_icon_tiers 19).2.2.2 (by norm_num)⟩

/-- C9: whenever `get_sensor_data` completes without raising, the stored
voltage is a one-element tuple and hence truthy — even at raw `0`, where
the measured voltage is exactly `0` volts but the stored value is the
truthy tuple `(0.0,)`; consequently, whenever every initial read of
`_setup_UPS` completes, setup succeeds and the failure branch guarded by
`not sensor_handler.sensor_data.voltage` is never taken. -/
theorem C9_voltage_always_truthy (r2 r4 i2 i4 a2 a4 b2 b4 : ℕ) (d : FieldData) :
    ((get_sensor_data (BusRead.mk (some r2) (some r4)) d).1.voltage).truthy = true
    ∧ (get_sensor_data (BusRead.mk (some 0) (some r4)) d).1.voltage
      = PyVal.tuple [0]
    ∧ ∃ hs, setup_UPS (BusRead.mk (some i2) (some i4))
        (BusRead.mk (some a2) (some a4)) (BusRead.mk (some b2) (some b4))
      = some (some hs) := by
  refine ⟨rfl, ?_, ?_⟩
  · norm_num [get_sensor_data, voltageDecode, byteswap16]
  · exact ⟨_, rfl⟩

/-- C10: every completed `get_sensor_data` call returns exactly `True`;
the only other outcome is a propagated exception, which happens precisely
when one of the two bus reads fails — a falsy return value never signals
failure. -/
theorem C10_returns_True (bus : BusRead) (d : FieldData) :
    ((get_sensor_data bus d).2 = some (PyVal.bool true)
      ∨ (get_sensor_data bus d).2 = Option.none)
    ∧ ((get_sensor_data bus d).2 = some (PyVal.bool true)
      ↔ bus.reg2.isSome ∧ bus.reg4.isSome) := by
  rcases bus with ⟨_ | r2, _ | r4⟩ <;> simp [get_sensor_data]

end GeekwormUPS
